import Mathlib

/-!
Verification of the content-moderation pipeline of `app/moderation.py` and the
comment-listing filter of `app/routes/comments.py`, via a shallow embedding:
pure helpers become Lean functions; the module-level mutable globals
(`_redis_client`, `_redis_available`, `_local_daily_calls`) become an explicit
`ModState` threaded through the operations; network and database I/O outcomes
are passed in explicitly (connection success, injected read/write faults, the
HTTP outcome of the AI call).  JSON numbers are modelled as integers (the
claims under study never involve floating-point values, which are outside the
scope of this embedding), and case folding is modelled at ASCII level.
-/

namespace Webh5

/-- Model of `datetime.date`: a plain calendar date. -/
structure PyDate where
  year : Nat
  month : Nat
  day : Nat
  deriving DecidableEq

/-- Left-pad a numeral string with zeros up to width `w`. -/
def padZeros (w : Nat) (s : String) : String :=
  if s.length ≥ w then s else ⟨List.replicate (w - s.length) '0'⟩ ++ s

/-- `date.isoformat()`: `YYYY-MM-DD` with zero padding. -/
def PyDate.isoformat (d : PyDate) : String :=
  padZeros 4 (toString d.year) ++ "-" ++ padZeros 2 (toString d.month) ++ "-" ++
    padZeros 2 (toString d.day)

/-- Characters removed by Python `str.strip()` (ASCII whitespace). -/
def isPyWs (c : Char) : Bool :=
  c = ' ' || c = '\t' || c = '\n' || c = '\r' || c = Char.ofNat 11 || c = Char.ofNat 12

/-- Python `str.strip()`. -/
def pyStrip (s : String) : String :=
  ⟨((s.data.dropWhile isPyWs).reverse.dropWhile isPyWs).reverse⟩

/-- Python `str.lower()`, at ASCII level. -/
def pyLower (s : String) : String :=
  ⟨s.data.map Char.toLower⟩

/-- Python `str.startswith`. -/
def pyStartsWith (pre s : String) : Bool :=
  pre.data.isPrefixOf s.data

/-- Python `str.split("\n")` helper: accumulate the current line. -/
def splitNlAux (cur : List Char) : List Char → List String
  | [] => [⟨cur.reverse⟩]
  | c :: rest =>
    if c = '\n' then (⟨cur.reverse⟩ : String) :: splitNlAux [] rest
    else splitNlAux (c :: cur) rest

/-- Python `str.split("\n")`. -/
def pySplitNl (s : String) : List String :=
  splitNlAux [] s.data

/-- Python `"\n".join(...)`. -/
def joinNl : List String → String
  | [] => ""
  | [x] => x
  | x :: xs => x ++ "\n" ++ joinNl xs

/-- Contiguous-sublist test on character lists (Python `a in b` on strings). -/
def substrAux (a : List Char) : List Char → Bool
  | [] => a.isEmpty
  | c :: t => a.isPrefixOf (c :: t) || substrAux a t

/-- Python `a in b` substring containment. -/
def pyIn (a b : String) : Bool :=
  substrAux a.data b.data

/-- The static lexicon `SENSITIVE_KEYWORDS` of `app/moderation.py`. -/
def SENSITIVE_KEYWORDS : List String :=
  ["傻逼", "sb", "操", "草", "妈", "爸", "日", "艹", "fuck", "shit", "damn",
   "狗", "猪", "蠢", "白痴", "弱智", "智障", "脑残", "废物", "垃圾", "滚",
   "死", "杀", "打", "揍",
   "性", "裸", "色情", "约炮", "一夜情", "援交",
   "加微信", "加qq", "加v", "威信", "薇信", "私聊", "优惠", "免费领",
   "点击链接", "http://", "https://", ".com", ".cn", ".top",
   "政府", "领导", "官员"]

/-- `contains_sensitive_words`: case-insensitive substring match against the
lexicon, true on first hit. -/
def contains_sensitive_words (content : String) : Bool :=
  let content_lower := pyLower content
  SENSITIVE_KEYWORDS.any (fun word => pyIn (pyLower word) content_lower)

/-- Opening-brace character, written by code point. -/
def lbrace : Char := Char.ofNat 123

/-- Closing-brace character, written by code point. -/
def rbrace : Char := Char.ofNat 125

/-- Double-quote character. -/
def dquote : Char := Char.ofNat 34

/-- Backslash character. -/
def bslash : Char := Char.ofNat 92

/-- JSON values as produced by `json.loads`, with numbers restricted to
integers (float-valued replies are outside the scope of this model). -/
inductive JVal where
  | null
  | bool (b : Bool)
  | num (n : Int)
  | str (s : String)
  | arr (elems : List JVal)
  | obj (members : List (String × JVal))

/-- JSON insignificant whitespace. -/
def isJsonWs (c : Char) : Bool :=
  c = ' ' || c = '\t' || c = '\n' || c = '\r'

/-- Skip JSON whitespace. -/
def skipWs : List Char → List Char
  | [] => []
  | c :: rest => if isJsonWs c then skipWs rest else c :: rest

/-- JSON string escape characters (the `\uXXXX` form is outside the model). -/
def escChar (c : Char) : Option Char :=
  if c = dquote then some dquote
  else if c = bslash then some bslash
  else if c = '/' then some '/'
  else if c = 'n' then some '\n'
  else if c = 't' then some '\t'
  else if c = 'r' then some '\r'
  else if c = 'b' then some (Char.ofNat 8)
  else if c = 'f' then some (Char.ofNat 12)
  else none

/-- Parse the remainder of a JSON string literal (opening quote consumed);
unescaped control characters are rejected as in strict `json.loads`. -/
def parseStrAux (acc : List Char) : List Char → Option (String × List Char)
  | [] => none
  | c :: rest =>
    if c = dquote then some (⟨acc.reverse⟩, rest)
    else if c = bslash then
      match rest with
      | [] => none
      | e :: rest2 =>
        match escChar e with
        | some d => parseStrAux (d :: acc) rest2
        | none => none
    else if c.toNat < 32 then none
    else parseStrAux (c :: acc) rest

/-- Take a maximal run of decimal digits. -/
def takeDigits : List Char → List Char × List Char
  | [] => ([], [])
  | c :: rest =>
    if c.isDigit then
      let (ds, r) := takeDigits rest
      (c :: ds, r)
    else ([], c :: rest)

/-- Numeric value of a digit run. -/
def digitsVal (ds : List Char) : Nat :=
  ds.foldl (fun a c => a * 10 + (c.toNat - 48)) 0

/-- Parse a JSON integer literal (leading zeros rejected as in `json.loads`;
fractional or exponent parts would be floats, outside the model). -/
def parseIntLit (cs : List Char) : Option (Int × List Char) :=
  let p : Bool × List Char :=
    match cs with
    | c :: r => if c = '-' then (true, r) else (false, cs)
    | [] => (false, cs)
  let (ds, rest) := takeDigits p.2
  if ds.isEmpty then none
  else if ds.length > 1 && ds.head? = some '0' then none
  else
    match rest with
    | c :: _ =>
      if c = '.' || c = 'e' || c = 'E' then none
      else some (if p.1 then -(digitsVal ds : Int) else (digitsVal ds : Int), rest)
    | [] => some (if p.1 then -(digitsVal ds : Int) else (digitsVal ds : Int), rest)

mutual

/-- Recursive-descent JSON value parser with a fuel bound. -/
def parseVal (fuel : Nat) (cs : List Char) : Option (JVal × List Char) :=
  match fuel with
  | 0 => none
  | f + 1 =>
    match skipWs cs with
    | [] => none
    | c :: rest =>
      if c = dquote then (parseStrAux [] rest).map (fun p => (JVal.str p.1, p.2))
      else if c = lbrace then parseObjBody f rest
      else if c = '[' then parseArrBody f rest
      else if c = 't' then
        match rest with
        | 'r' :: 'u' :: 'e' :: r => some (JVal.bool true, r)
        | _ => none
      else if c = 'f' then
        match rest with
        | 'a' :: 'l' :: 's' :: 'e' :: r => some (JVal.bool false, r)
        | _ => none
      else if c = 'n' then
        match rest with
        | 'u' :: 'l' :: 'l' :: r => some (JVal.null, r)
        | _ => none
      else (parseIntLit (c :: rest)).map (fun p => (JVal.num p.1, p.2))

/-- Parse an object body (opening brace consumed). -/
def parseObjBody (fuel : Nat) (cs : List Char) : Option (JVal × List Char) :=
  match fuel with
  | 0 => none
  | f + 1 =>
    match skipWs cs with
    | [] => none
    | c :: rest =>
      if c = rbrace then some (JVal.obj [], rest)
      else parseMembers f [] (c :: rest)

/-- Parse one or more `"key": value` members. -/
def parseMembers (fuel : Nat) (acc : List (String × JVal)) (cs : List Char) :
    Option (JVal × List Char) :=
  match fuel with
  | 0 => none
  | f + 1 =>
    match skipWs cs with
    | c :: rest =>
      if c = dquote then
        match parseStrAux [] rest with
        | none => none
        | some (key, rest2) =>
          match skipWs rest2 with
          | ':' :: rest3 =>
            match parseVal f rest3 with
            | none => none
            | some (v, rest4) =>
              match skipWs rest4 with
              | ',' :: rest5 => parseMembers f (acc ++ [(key, v)]) rest5
              | d :: rest5 =>
                if d = rbrace then some (JVal.obj (acc ++ [(key, v)]), rest5) else none
              | [] => none
          | _ => none
      else none
    | [] => none

/-- Parse an array body (opening bracket consumed). -/
def parseArrBody (fuel : Nat) (cs : List Char) : Option (JVal × List Char) :=
  match fuel with
  | 0 => none
  | f + 1 =>
    match skipWs cs with
    | [] => none
    | c :: rest =>
      if c = ']' then some (JVal.arr [], rest)
      else parseElems f [] (c :: rest)

/-- Parse one or more array elements. -/
def parseElems (fuel : Nat) (acc : List JVal) (cs : List Char) :
    Option (JVal × List Char) :=
  match fuel with
  | 0 => none
  | f + 1 =>
    match parseVal f cs with
    | none => none
    | some (v, rest) =>
      match skipWs rest with
      | ',' :: rest2 => parseElems f (acc ++ [v]) rest2
      | d :: rest2 => if d = ']' then some (JVal.arr (acc ++ [v]), rest2) else none
      | [] => none

end

/-- `json.loads`: parse a complete JSON document, requiring full consumption. -/
def jsonParse (s : String) : Option JVal :=
  match parseVal (3 * s.length + 8) s.data with
  | some (v, rest) => if (skipWs rest).isEmpty then some v else none
  | none => none

/-- Python `dict.get` on a JSON object: the last binding of a duplicated key
wins, as in `json.loads`. -/
def jget (members : List (String × JVal)) (k : String) : Option JVal :=
  (members.reverse.find? (fun p => p.1 == k)).map (fun p => p.2)

/-- Python truthiness `bool(x)` on JSON-decoded values. -/
def pyBool : JVal → Bool
  | .null => false
  | .bool b => b
  | .num n => n != 0
  | .str s => s != ""
  | .arr elems => !elems.isEmpty
  | .obj members => !members.isEmpty

/-- Single-quote character, written by code point. -/
def squote : Char := Char.ofNat 39

/-- Python `repr` on JSON-decoded values (string quoting simplified to the
common single-quote form). -/
def pyRepr : JVal → String
  | .null => "None"
  | .bool b => if b then "True" else "False"
  | .num n => toString n
  | .str s => String.singleton squote ++ s ++ String.singleton squote
  | .arr elems => "[" ++ String.intercalate ", " (elems.attach.map (fun e => pyRepr e.1)) ++ "]"
  | .obj members =>
      "\x7b" ++
        String.intercalate ", "
          (members.attach.map
            (fun p =>
              String.singleton squote ++ p.1.1 ++ String.singleton squote ++ ": " ++
                pyRepr p.1.2)) ++ "\x7d"
decreasing_by
  all_goals
    first
    | (have h := List.sizeOf_lt_of_mem e.2
       simp only [JVal.arr.sizeOf_spec]
       omega)
    | (have h := List.sizeOf_lt_of_mem p.2
       have h2 : sizeOf p.1.2 < sizeOf p.1 := by
         obtain ⟨⟨a, b⟩, hm⟩ := p
         simp only [Prod.mk.sizeOf_spec]
         omega
       simp only [JVal.obj.sizeOf_spec]
       omega)

/-- Python `str` on JSON-decoded values. -/
def pyStr : JVal → String
  | .str s => s
  | .null => "None"
  | .bool b => if b then "True" else "False"
  | .num n => toString n
  | .arr elems => pyRepr (.arr elems)
  | .obj members => pyRepr (.obj members)

/-- Leftmost match of the pattern "an opening brace, any non-brace characters,
a closing brace" (the `re.search` in `check_content_with_deepseek`); the
accumulator holds the interior of the candidate currently open. -/
def braceSearchAux (cand : Option (List Char)) : List Char → Option (List Char)
  | [] => none
  | c :: rest =>
    match cand with
    | none => if c = lbrace then braceSearchAux (some []) rest else braceSearchAux none rest
    | some acc =>
      if c = rbrace then some acc.reverse
      else if c = lbrace then braceSearchAux (some []) rest
      else braceSearchAux (some (c :: acc)) rest

/-- The matched substring of the brace pattern, if any. -/
def braceSearch (s : String) : Option String :=
  (braceSearchAux none s.data).map
    (fun mid => ⟨lbrace :: mid ++ [rbrace]⟩)

/-- The reply-cleaning sequence of `check_content_with_deepseek`: strip, drop a
markdown code fence if present, then keep only the first brace-delimited
substring when one exists. -/
def cleanReply (raw : String) : String :=
  let reply := pyStrip raw
  let reply :=
    if pyStartsWith "```" reply then
      let lines := pySplitNl reply
      let lastLine := pyStrip (lines.getLast?.getD "")
      let kept :=
        if lastLine = "```" || lastLine = "```json" then (lines.drop 1).dropLast
        else lines.drop 1
      pyStrip (joinNl kept)
    else reply
  match braceSearch reply with
  | some m => m
  | none => reply

/-- `result.get("choices", [\x7b\x7d])[0].get("message", \x7b\x7d).get("content", "")`
applied to the HTTP body: `none` models any exception raised inside the `try`
block (unparseable body, non-object result, empty `choices`, a non-object
element or message, a non-string content), all of which the caller converts to
the default-allow verdict. -/
def extractReply (body : String) : Option String :=
  match jsonParse body with
  | none => none
  | some j =>
    match j with
    | .obj kvs =>
      match (jget kvs "choices").getD (.arr [.obj []]) with
      | .arr elems =>
        match elems.head? with
        | none => none
        | some c0 =>
          match c0 with
          | .obj cm =>
            match (jget cm "message").getD (.obj []) with
            | .obj mm =>
              match (jget mm "content").getD (.str "") with
              | .str s => some s
              | _ => none
            | _ => none
          | _ => none
      | _ => none
    | _ => none

/-- The verdict mapping of `check_content_with_deepseek` once a JSON value has
been decoded from the cleaned reply: non-objects fall back to the default
allow; a string `pass` field is matched case-insensitively against
"true"/"1"/"yes"; any other `pass` value goes through Python truthiness. -/
def verdict_of_json (data : JVal) : Bool × String :=
  match data with
  | .obj kvs =>
    let is_pass := (jget kvs "pass").getD (.bool true)
    let reason := (jget kvs "reason").getD (.str "")
    let b :=
      match is_pass with
      | .str s => pyLower s == "true" || pyLower s == "1" || pyLower s == "yes"
      | v => pyBool v
    (b, pyStr reason)
  | _ => (true, "")

/-- The configuration fields of `app/config.py` consumed by the pipeline. -/
structure Settings where
  MODERATION_ENABLED : Bool
  MODERATION_DAILY_LIMIT : Int
  DEEPSEEK_API_KEY : String

/-- Outcome of the one HTTP POST issued to the AI endpoint. -/
inductive ApiOutcome where
  | timeout
  | transportError
  | response (status : Nat) (body : String)

/-- `check_content_with_deepseek`: returns `(is_pass, reason)`; every failure
path (missing credential, timeout, transport exception, non-200 status, body
or reply that cannot be decoded to a JSON object) resolves to `(true, "")`. -/
def check_content_with_deepseek (st : Settings) (outcome : ApiOutcome) : Bool × String :=
  if st.DEEPSEEK_API_KEY = "" then (true, "")
  else
    match outcome with
    | .timeout => (true, "")
    | .transportError => (true, "")
    | .response status body =>
      if status ≠ 200 then (true, "")
      else
        match extractReply body with
        | none => (true, "")
        | some reply =>
          match jsonParse (cleanReply reply) with
          | none => (true, "")
          | some data => verdict_of_json data

/-- Contents of the backing key-value store: integer values and per-key
time-to-live, as used through `GET`/`INCR`/`EXPIRE`. -/
structure RedisDb where
  val : String → Option Int
  ttl : String → Option Int

/-- `INCR`: a missing key counts as 0 and is created with no expiry; the new
value is returned. -/
def RedisDb.incr (db : RedisDb) (k : String) : Int × RedisDb :=
  let newv := (db.val k).getD 0 + 1
  (newv, ⟨fun k2 => if k2 = k then some newv else db.val k2, db.ttl⟩)

/-- `EXPIRE`: sets the time-to-live of an existing key; no-op on a missing
key. -/
def RedisDb.expire (db : RedisDb) (k : String) (t : Int) : RedisDb :=
  if (db.val k).isSome then
    ⟨db.val, fun k2 => if k2 = k then some t else db.ttl k2⟩
  else db

/-- The module-level mutable state of `app/moderation.py`: the connection
singleton `_redis_client` (only its presence matters), the sticky availability
flag `_redis_available`, the backing store contents, and the in-process
fallback counter `_local_daily_calls`. -/
structure ModState where
  redisConnected : Bool
  redisAvailable : Bool
  db : RedisDb
  localDate : Option PyDate
  localCount : Int

/-- Result of `get_redis`: whether a client was returned, whether a fresh
connection was attempted, and the state afterwards. -/
structure GetRedisRes where
  client : Bool
  attemptedConnect : Bool
  s : ModState

/-- `get_redis`: returns `None` immediately once the availability flag is
down; reuses the singleton when present; otherwise attempts one connection,
and on failure trips the flag and clears the singleton. -/
def get_redis (connOk : Bool) (s : ModState) : GetRedisRes :=
  if s.redisAvailable = false then ⟨false, false, s⟩
  else if s.redisConnected then ⟨true, false, s⟩
  else if connOk then ⟨true, true, { s with redisConnected := true }⟩
  else ⟨false, true, { s with redisAvailable := false, redisConnected := false }⟩

/-- `moderation:daily_count:<ISO-8601 date>`. -/
def _get_daily_key (today : PyDate) : String :=
  "moderation:daily_count:" ++ today.isoformat

/-- Reset of `_local_daily_calls` when the stored date differs from today. -/
def localFallbackReset (today : PyDate) (s : ModState) : ModState :=
  if s.localDate ≠ some today then { s with localDate := some today, localCount := 0 }
  else s

/-- The local-counter increment at the tail of `_increment_api_calls`. -/
def localIncr (today : PyDate) (s : ModState) : Int × ModState :=
  let s2 := localFallbackReset today s
  (s2.localCount + 1, { s2 with localCount := s2.localCount + 1 })

/-- `_check_daily_limit`: reads today's counter from the store when a client
is available and the read does not fault, otherwise falls back to the local
counter; true means the cap is not yet reached. -/
def _check_daily_limit (st : Settings) (connOk readFault : Bool) (today : PyDate)
    (s : ModState) : Bool × ModState :=
  let r := get_redis connOk s
  if r.client && !readFault then
    (decide ((r.s.db.val (_get_daily_key today)).getD 0 < st.MODERATION_DAILY_LIMIT), r.s)
  else
    let s2 := localFallbackReset today r.s
    (decide (s2.localCount < st.MODERATION_DAILY_LIMIT), s2)

/-- `_increment_api_calls`: on the store path, `INCR` today's key and refresh a
90000-second expiry; an injected fault at either store call (or no client at
all) routes to the local fallback counter. -/
def _increment_api_calls (connOk incrFault expireFault : Bool) (today : PyDate)
    (s : ModState) : Int × ModState :=
  let r := get_redis connOk s
  if r.client then
    if incrFault then localIncr today r.s
    else
      let key := _get_daily_key today
      let p := r.s.db.incr key
      let s2 := { r.s with db := p.2 }
      if expireFault then localIncr today s2
      else (p.1, { s2 with db := p.2.expire key 90000 })
  else localIncr today r.s

/-- The environment of one pipeline run: today's date, the injected outcomes
of the quota-store calls, and the AI HTTP outcome. -/
structure ModEnv where
  today : PyDate
  checkConnOk : Bool
  checkReadFault : Bool
  incrConnOk : Bool
  incrFault : Bool
  expireFault : Bool
  api : ApiOutcome

/-- Result of one `moderate_comment` run: the single status mutation issued to
`_update_comment_status` (`none` when no update is issued at all), whether the
AI client was invoked, and the final module state. -/
structure PipelineRes where
  update : Option (String × String × Option String)
  aiCalled : Bool
  s : ModState

/-- `moderate_comment`: disabled config returns with no update; a body with no
sensitive term or an exhausted quota finalizes to approved; otherwise one
quota increment, one AI call, and an approved/rejected finalization. -/
def moderate_comment (st : Settings) (env : ModEnv) (comment_id content : String)
    (s : ModState) : PipelineRes :=
  if st.MODERATION_ENABLED = false then ⟨none, false, s⟩
  else if contains_sensitive_words content = false then
    ⟨some (comment_id, "approved", none), false, s⟩
  else
    let ck := _check_daily_limit st env.checkConnOk env.checkReadFault env.today s
    if ck.1 = false then ⟨some (comment_id, "approved", none), false, ck.2⟩
    else
      let inc := _increment_api_calls env.incrConnOk env.incrFault env.expireFault env.today ck.2
      let verdict := check_content_with_deepseek st env.api
      if verdict.1 then ⟨some (comment_id, "approved", none), true, inc.2⟩
      else ⟨some (comment_id, "rejected", some verdict.2), true, inc.2⟩

/-- Today's counter as stored in the backing store (a missing key reads 0). -/
def redisCount (d : PyDate) (s : ModState) : Int :=
  (s.db.val (_get_daily_key d)).getD 0

/-- Today's counter as held by the in-process fallback (a stale date reads 0). -/
def localToday (d : PyDate) (s : ModState) : Int :=
  if s.localDate = some d then s.localCount else 0

/-- The columns of the `comments` table touched by the pipeline and the
listing query (`app/models.py`); the status enum is kept as its stored string
value. -/
structure CommentRow where
  id : String
  post_id : String
  content : String
  author : String
  is_deleted : Bool
  moderation_status : String
  moderation_reason : Option String
  deriving DecidableEq

/-- Outcome of the database round-trip inside `_update_comment_status`. -/
inductive DbResult where
  | ok
  | execError
  | commitError
  deriving DecidableEq

/-- The `UPDATE comments SET moderation_status, moderation_reason WHERE id`
statement: rows with a different id are untouched; an absent id updates
nothing. -/
def db_update_comment (comment_id status : String) (reason : Option String)
    (rows : List CommentRow) : List CommentRow :=
  rows.map (fun c =>
    if c.id = comment_id then
      { c with moderation_status := status, moderation_reason := reason }
    else c)

/-- The body of the `try` block of `_update_comment_status`: the execute or
the commit may raise. -/
def db_try_update (outcome : DbResult) (comment_id status : String)
    (reason : Option String) (rows : List CommentRow) :
    Except String (List CommentRow) :=
  match outcome with
  | .ok => .ok (db_update_comment comment_id status reason rows)
  | .execError => .error "execute failed"
  | .commitError => .error "commit failed"

/-- `_update_comment_status`: the whole body sits in a `try`/`except` that
logs and swallows any failure, so the caller always gets a normal return
(`Except.ok`); on failure the table is left as it was. -/
def _update_comment_status (comment_id status : String) (reason : Option String)
    (outcome : DbResult) (rows : List CommentRow) : Except String (List CommentRow) :=
  match db_try_update outcome comment_id status reason rows with
  | .ok r => .ok r
  | .error _e => .ok rows

/-- The `WHERE` clause of the listing query in `get_comments`
(`app/routes/comments.py`): comments of the requested post, not soft-deleted,
and not rejected by moderation. -/
def get_comments_visible (postId : String) (rows : List CommentRow) : List CommentRow :=
  rows.filter (fun c =>
    decide (c.post_id = postId ∧ c.is_deleted = false ∧ c.moderation_status ≠ "rejected"))

/-! Concrete fixtures used by witnesses and counterexamples. -/

/-- An empty backing store. -/
def dbEmpty : RedisDb := ⟨fun _ => none, fun _ => none⟩

/-- A sample date. -/
def d2026 : PyDate := ⟨2026, 10, 12⟩

/-- Moderation enabled, cap 500, credential configured. -/
def stOn : Settings := ⟨true, 500, "key"⟩

/-- Moderation disabled. -/
def stOff : Settings := ⟨false, 500, "key"⟩

/-- Moderation enabled with the daily cap set to 0. -/
def stCap0 : Settings := ⟨true, 0, "key"⟩

/-- State with an established store connection. -/
def sConn : ModState := ⟨true, true, dbEmpty, none, 0⟩

/-- State after the availability flag has been tripped. -/
def sUnav : ModState := ⟨false, false, dbEmpty, none, 0⟩

/-- Fresh state: no connection yet, store assumed available. -/
def sFresh : ModState := ⟨false, true, dbEmpty, none, 0⟩

/-- A benign environment: connections succeed, no faults, AI times out. -/
def envBase : ModEnv := ⟨d2026, true, false, true, false, false, .timeout⟩

/-! Helper lemmas about the quota-state operations. -/

lemma get_redis_db (connOk : Bool) (s : ModState) : (get_redis connOk s).s.db = s.db := by
  unfold get_redis; split_ifs <;> rfl

lemma get_redis_localDate (connOk : Bool) (s : ModState) :
    (get_redis connOk s).s.localDate = s.localDate := by
  unfold get_redis; split_ifs <;> rfl

lemma get_redis_localCount (connOk : Bool) (s : ModState) :
    (get_redis connOk s).s.localCount = s.localCount := by
  unfold get_redis; split_ifs <;> rfl

lemma get_redis_localToday (connOk : Bool) (d : PyDate) (s : ModState) :
    localToday d (get_redis connOk s).s = localToday d s := by
  unfold localToday
  rw [get_redis_localDate, get_redis_localCount]

lemma get_redis_unavailable (connOk : Bool) (s : ModState) (h : s.redisAvailable = false) :
    get_redis connOk s = ⟨false, false, s⟩ := by
  unfold get_redis
  rw [if_pos h]

lemma get_redis_connected (connOk : Bool) (s : ModState) (ha : s.redisAvailable = true)
    (hc : s.redisConnected = true) : get_redis connOk s = ⟨true, false, s⟩ := by
  unfold get_redis
  rw [ha, if_neg (by simp), hc, if_pos rfl]

lemma localFallbackReset_localDate (d : PyDate) (s : ModState) :
    (localFallbackReset d s).localDate = some d := by
  by_cases h : s.localDate = some d <;> simp [localFallbackReset, h]

lemma localFallbackReset_localCount (d : PyDate) (s : ModState) :
    (localFallbackReset d s).localCount = localToday d s := by
  by_cases h : s.localDate = some d <;> simp [localFallbackReset, localToday, h]

lemma localFallbackReset_db (d : PyDate) (s : ModState) :
    (localFallbackReset d s).db = s.db := by
  by_cases h : s.localDate = some d <;> simp [localFallbackReset, h]

lemma localFallbackReset_avail (d : PyDate) (s : ModState) :
    (localFallbackReset d s).redisAvailable = s.redisAvailable := by
  by_cases h : s.localDate = some d <;> simp [localFallbackReset, h]

lemma localFallbackReset_localToday (d : PyDate) (s : ModState) :
    localToday d (localFallbackReset d s) = localToday d s := by
  unfold localToday
  rw [localFallbackReset_localDate, if_pos rfl, localFallbackReset_localCount]
  unfold localToday
  rfl

lemma check_db (st : Settings) (connOk readFault : Bool) (d : PyDate) (s : ModState) :
    (_check_daily_limit st connOk readFault d s).2.db = s.db := by
  simp only [_check_daily_limit]
  split_ifs
  · rw [get_redis_db]
  · rw [localFallbackReset_db, get_redis_db]

lemma check_localToday (st : Settings) (connOk readFault : Bool) (d : PyDate) (s : ModState) :
    localToday d (_check_daily_limit st connOk readFault d s).2 = localToday d s := by
  simp only [_check_daily_limit]
  split_ifs
  · rw [get_redis_localToday]
  · rw [localFallbackReset_localToday, get_redis_localToday]

lemma check_avail_of_unavailable (st : Settings) (connOk readFault : Bool) (d : PyDate)
    (s : ModState) (h : s.redisAvailable = false) :
    (_check_daily_limit st connOk readFault d s).2.redisAvailable = false := by
  simp only [_check_daily_limit]
  rw [get_redis_unavailable connOk s h]
  simp [localFallbackReset_avail, h]

lemma incr_avail_of_unavailable (connOk f1 f2 : Bool) (d : PyDate) (s : ModState)
    (h : s.redisAvailable = false) :
    (_increment_api_calls connOk f1 f2 d s).2.redisAvailable = false := by
  simp only [_increment_api_calls, localIncr]
  rw [get_redis_unavailable connOk s h]
  simp [localFallbackReset_avail, h]

/-! The claims. -/

/-- C1, counterexample: with the moderation switch off, `moderate_comment`
does not finalize the comment to `approved`; it issues no status update at
all, contradicting the claim at the concrete comment `c1`. -/
theorem C1_counterexample :
    (moderate_comment stOff envBase "c1" "great article" sConn).update = none ∧
    (moderate_comment stOff envBase "c1" "great article" sConn).update ≠
      some ("c1", "approved", none) := by
  constructor
  · rfl
  · decide

/-- C1 (amended): when the moderation-enabled configuration switch is off,
`moderate_comment` returns immediately, performing no stages, touching no
state, and issuing no status update — the comment is left at its creation
status `pending` rather than being finalized to `approved`. -/
theorem C1_disabled_no_status_write (st : Settings) (env : ModEnv)
    (comment_id content : String) (s : ModState) (h : st.MODERATION_ENABLED = false) :
    moderate_comment st env comment_id content s = ⟨none, false, s⟩ := by
  simp [moderate_comment, h]

/-- C1 witness: the amended theorem evaluated at a concrete disabled
configuration. -/
theorem C1_witness :
    moderate_comment stOff envBase "c1w" "hello" sConn = ⟨none, false, sConn⟩ :=
  C1_disabled_no_status_write stOff envBase "c1w" "hello" sConn rfl

/-- C4: a comment body containing none of the lexicon terms (case-insensitive
substring match) is finalized to `approved` with reason null by the enabled
pipeline, without invoking the AI client and with the whole quota state
unchanged. -/
theorem C4_prefilter_short_circuit (st : Settings) (env : ModEnv)
    (comment_id content : String) (s : ModState)
    (hen : st.MODERATION_ENABLED = true)
    (hclean : contains_sensitive_words content = false) :
    moderate_comment st env comment_id content s =
      ⟨some (comment_id, "approved", none), false, s⟩ := by
  simp [moderate_comment, hen, hclean]

/-- C4 witness: the spec's scenario-A body evaluated concretely. -/
theorem C4_witness :
    moderate_comment stOn envBase "c4" "nice post, thanks!" sConn =
      ⟨some ("c4", "approved", none), false, sConn⟩ :=
  C4_prefilter_short_circuit stOn envBase "c4" "nice post, thanks!" sConn rfl (by decide)

/-- C8: the status sink `_update_comment_status` never raises to its caller:
for every database outcome it returns normally; a failed update leaves the
table unchanged, and an id with no matching row updates nothing. -/
theorem C8_sink_never_raises (comment_id status : String) (reason : Option String)
    (outcome : DbResult) (rows : List CommentRow) :
    ((_update_comment_status comment_id status reason outcome rows).isOk = true) ∧
    (outcome ≠ .ok →
      _update_comment_status comment_id status reason outcome rows = .ok rows) ∧
    ((∀ c ∈ rows, c.id ≠ comment_id) →
      _update_comment_status comment_id status reason outcome rows = .ok rows) := by
  refine ⟨?_, ?_, ?_⟩
  · cases outcome <;> rfl
  · intro h
    cases outcome with
    | ok => exact absurd rfl h
    | execError => rfl
    | commitError => rfl
  · intro h
    cases outcome with
    | ok =>
      unfold _update_comment_status db_try_update db_update_comment
      have : rows.map (fun c =>
          if c.id = comment_id then
            { c with moderation_status := status, moderation_reason := reason }
          else c) = rows := by
        induction rows with
        | nil => rfl
        | cons a t ih =>
          simp only [List.map_cons]
          rw [if_neg (h a (by simp)), ih (fun c hc => h c (by simp [hc]))]
      rw [this]
    | execError => rfl
    | commitError => rfl

/-- C8 witness: a failing update on an empty table returns normally with the
table unchanged. -/
theorem C8_witness :
    _update_comment_status "c8" "approved" none .execError [] = .ok [] := by
  have h := C8_sink_never_raises "c8" "approved" none .execError []
  exact h.2.1 (by decide)

/-- C9: the comment-listing query returns exactly the comments of the
requested post that are not soft-deleted and whose moderation status is not
`rejected`; in particular `pending` and `approved` comments are included and
`rejected` ones are excluded. -/
theorem C9_listing_filter (postId : String) (rows : List CommentRow) (c : CommentRow) :
    c ∈ get_comments_visible postId rows ↔
      c ∈ rows ∧ c.post_id = postId ∧ c.is_deleted = false ∧
        c.moderation_status ≠ "rejected" := by
  simp [get_comments_visible, List.mem_filter]

/-- C5: `_check_daily_limit` returns true iff the counter it consults — the
store's counter for today when a client is available and the read succeeds,
the in-process fallback counter otherwise — is strictly below the configured
daily cap; and when the check reports the cap reached, a lexicon-matching
comment is finalized to `approved` with no reason, no AI call, and no quota
increment. -/
theorem C5_daily_limit (st : Settings) (env : ModEnv) (comment_id content : String)
    (s : ModState) :
    (((_check_daily_limit st env.checkConnOk env.checkReadFault env.today s).1 = true) ↔
      (if (get_redis env.checkConnOk s).client && !env.checkReadFault then
        redisCount env.today s
      else localToday env.today s) < st.MODERATION_DAILY_LIMIT) ∧
    (st.MODERATION_ENABLED = true →
      contains_sensitive_words content = true →
      (_check_daily_limit st env.checkConnOk env.checkReadFault env.today s).1 = false →
      (moderate_comment st env comment_id content s).update =
        some (comment_id, "approved", none) ∧
      (moderate_comment st env comment_id content s).aiCalled = false ∧
      redisCount env.today (moderate_comment st env comment_id content s).s =
        redisCount env.today s ∧
      localToday env.today (moderate_comment st env comment_id content s).s =
        localToday env.today s) := by
  constructor
  · simp only [_check_daily_limit]
    split_ifs with h
    · simp [redisCount, get_redis_db]
    · simp [localFallbackReset_localCount, get_redis_localToday]
  · intro hen hsen hcap
    simp only [moderate_comment, hen, hsen, hcap]
    simp only [Bool.true_eq_false, if_false, if_true, reduceCtorEq, ite_false, ite_true]
    refine ⟨by simp, by simp, ?_, ?_⟩
    · simp only [redisCount]
      rw [check_db]
    · exact check_localToday st env.checkConnOk env.checkReadFault env.today s

/-- C5 witness: with the cap configured at 0, a lexicon-matching comment is
approved without an AI call. -/
theorem C5_witness :
    (moderate_comment stCap0 envBase "c5" "加微信" sConn).update =
      some ("c5", "approved", none) ∧
    (moderate_comment stCap0 envBase "c5" "加微信" sConn).aiCalled = false := by
  have h := (C5_daily_limit stCap0 envBase "c5" "加微信" sConn).2 rfl (by decide) (by decide)
  exact ⟨h.1, h.2.1⟩

/-- C7: `_increment_api_calls` uses the key `moderation:daily_count:` followed
by the ISO-8601 date; on the store path it increments today's counter by
exactly one, returns the new value and refreshes a 90000-second expiry on the
key; on the fallback path the in-process counter is reset on date change
before being incremented by one, the new value being returned. -/
theorem C7_record_call (connOk incrFault expireFault : Bool) (d : PyDate) (s : ModState) :
    (_get_daily_key d = "moderation:daily_count:" ++ d.isoformat) ∧
    ((get_redis connOk s).client = true → incrFault = false → expireFault = false →
      (_increment_api_calls connOk incrFault expireFault d s).1 = redisCount d s + 1 ∧
      redisCount d (_increment_api_calls connOk incrFault expireFault d s).2 =
        redisCount d s + 1 ∧
      (_increment_api_calls connOk incrFault expireFault d s).2.db.ttl (_get_daily_key d) =
        some 90000) ∧
    ((get_redis connOk s).client = false →
      (_increment_api_calls connOk incrFault expireFault d s).1 = localToday d s + 1 ∧
      (_increment_api_calls connOk incrFault expireFault d s).2.localCount =
        localToday d s + 1 ∧
      (_increment_api_calls connOk incrFault expireFault d s).2.localDate = some d) := by
  refine ⟨rfl, ?_, ?_⟩
  · intro hc h1 h2
    simp only [_increment_api_calls, hc, h1, h2, RedisDb.incr, RedisDb.expire,
      if_true, ite_false, ite_true, Bool.false_eq_true, redisCount]
    simp [get_redis_db]
  · intro hc
    simp only [_increment_api_calls, hc, localIncr, Bool.false_eq_true, ite_false]
    simp [localFallbackReset_localCount, localFallbackReset_localDate, get_redis_localToday]

/-- C7 witness: a concrete increment against an empty store. -/
theorem C7_witness :
    (_increment_api_calls true false false d2026 sConn).1 = redisCount d2026 sConn + 1 ∧
    (_increment_api_calls true false false d2026 sConn).2.db.ttl (_get_daily_key d2026) =
      some 90000 ∧
    _get_daily_key d2026 = "moderation:daily_count:2026-10-12" := by
  have h := C7_record_call true false false d2026 sConn
  exact ⟨(h.2.1 (by decide) rfl rfl).1, (h.2.1 (by decide) rfl rfl).2.2,
    by rw [h.1]; decide⟩

/-- C2, counterexample: an I/O error on a read against an established client
does not set the availability flag to unavailable (it stays true), and the
very next quota call still talks to the backing store (the store counter is
written), contradicting the claim that any I/O error makes every subsequent
call use the in-process fallback. -/
theorem C2_counterexample :
    ((_check_daily_limit stOn true true d2026 sConn).2.redisAvailable = true) ∧
    ((_increment_api_calls true false false d2026
        (_check_daily_limit stOn true true d2026 sConn).2).2.db.val (_get_daily_key d2026) =
      some 1) := by
  exact ⟨by decide, by decide⟩

/-- C2 (amended): only a failed connection attempt trips the process-wide
availability flag; once false, the flag is never reset, `get_redis` returns
no client without attempting a reconnect, and every quota call uses the
in-process fallback counter, which keeps counting within a date and resets on
date change; a read or write fault on an established client falls back for
that call only, leaving the flag up. -/
theorem C2_sticky_breaker (st : Settings) (d : PyDate) (s : ModState) :
    (s.redisAvailable = true → s.redisConnected = false →
      (get_redis false s).client = false ∧ (get_redis false s).s.redisAvailable = false) ∧
    (s.redisAvailable = false →
      (∀ connOk, get_redis connOk s = ⟨false, false, s⟩) ∧
      (∀ connOk readFault,
        (_check_daily_limit st connOk readFault d s).2.redisAvailable = false) ∧
      (∀ connOk f1 f2,
        (_increment_api_calls connOk f1 f2 d s).2.redisAvailable = false)) ∧
    (s.redisAvailable = false →
      ∀ connOk f1 f2,
        (_increment_api_calls connOk f1 f2 d s).1 = localToday d s + 1 ∧
        (_increment_api_calls connOk f1 f2 d s).2.localCount = localToday d s + 1 ∧
        (_increment_api_calls connOk f1 f2 d s).2.localDate = some d) ∧
    (s.redisAvailable = true → s.redisConnected = true →
      (∀ connOk readFault,
        (_check_daily_limit st connOk readFault d s).2.redisAvailable = true) ∧
      (∀ connOk f1 f2,
        (_increment_api_calls connOk f1 f2 d s).2.redisAvailable = true)) := by
  refine ⟨?_, ?_, ?_, ?_⟩
  · intro ha hc
    simp [get_redis, ha, hc]
  · intro h
    exact ⟨fun connOk => get_redis_unavailable connOk s h,
      fun connOk readFault => check_avail_of_unavailable st connOk readFault d s h,
      fun connOk f1 f2 => incr_avail_of_unavailable connOk f1 f2 d s h⟩
  · intro h connOk f1 f2
    simp only [_increment_api_calls, get_redis_unavailable connOk s h, localIncr,
      Bool.false_eq_true, ite_false]
    simp [localFallbackReset_localCount, localFallbackReset_localDate]
  · intro ha hc
    constructor
    · intro connOk readFault
      simp only [_check_daily_limit, get_redis_connected connOk s ha hc]
      split_ifs <;> simp [localFallbackReset_avail, ha]
    · intro connOk f1 f2
      simp only [_increment_api_calls, get_redis_connected connOk s ha hc, localIncr]
      split_ifs <;> simp [localFallbackReset_avail, ha]

/-- C2 witness: a failed connection attempt trips the flag; afterwards no
reconnect is attempted and the fallback counter starts at 1. -/
theorem C2_witness :
    (get_redis false sFresh).s.redisAvailable = false ∧
    get_redis true sUnav = ⟨false, false, sUnav⟩ ∧
    (_increment_api_calls true false false d2026 sUnav).1 = 1 := by
  have ha := (C2_sticky_breaker stOn d2026 sFresh).1 rfl rfl
  have hb := (C2_sticky_breaker stOn d2026 sUnav).2.1 rfl
  have hcc := (C2_sticky_breaker stOn d2026 sUnav).2.2.1 rfl true false false
  refine ⟨ha.2, hb.1 true, ?_⟩
  rw [hcc.1]
  decide

/-- C3: every degraded-path outcome of the AI client resolves to the
default-allow verdict `(true, "")` without raising: a timeout, a transport
exception, a non-200 HTTP status, a body from which no reply can be
extracted (empty or unparseable HTTP body included), a reply that does not
parse as JSON after cleaning (empty replies and free-text prose with no
brace-delimited JSON included), and a reply that parses to a non-object JSON
value. -/
theorem C3_default_allow (st : Settings) :
    (check_content_with_deepseek st .timeout = (true, "")) ∧
    (check_content_with_deepseek st .transportError = (true, "")) ∧
    (∀ status body, status ≠ 200 →
      check_content_with_deepseek st (.response status body) = (true, "")) ∧
    (∀ body, extractReply body = none →
      check_content_with_deepseek st (.response 200 body) = (true, "")) ∧
    (∀ body reply, extractReply body = some reply →
      jsonParse (cleanReply reply) = none →
      check_content_with_deepseek st (.response 200 body) = (true, "")) ∧
    (∀ body reply v, extractReply body = some reply →
      jsonParse (cleanReply reply) = some v →
      (∀ members, v ≠ JVal.obj members) →
      check_content_with_deepseek st (.response 200 body) = (true, "")) := by
  by_cases hk : st.DEEPSEEK_API_KEY = ""
  · simp [check_content_with_deepseek, hk]
  · refine ⟨by simp [check_content_with_deepseek, hk],
      by simp [check_content_with_deepseek, hk], ?_, ?_, ?_, ?_⟩
    · intro status body hst
      simp [check_content_with_deepseek, hk, hst]
    · intro body hex
      simp [check_content_with_deepseek, hk, hex]
    · intro body reply hex hjs
      simp [check_content_with_deepseek, hk, hex, hjs]
    · intro body reply v hex hjs hne
      have hred : check_content_with_deepseek st (.response 200 body) = verdict_of_json v := by
        simp [check_content_with_deepseek, hk, hex, hjs]
      rw [hred]
      cases v with
      | obj m => exact absurd rfl (hne m)
      | null => simp [verdict_of_json]
      | bool b => simp [verdict_of_json]
      | num n => simp [verdict_of_json]
      | str s2 => simp [verdict_of_json]
      | arr a => simp [verdict_of_json]

/-- C3 witness: concrete degraded outcomes all default-allow. -/
theorem C3_witness :
    check_content_with_deepseek stOn .timeout = (true, "") ∧
    check_content_with_deepseek stOn (.response 500 "internal error") = (true, "") ∧
    check_content_with_deepseek stOn (.response 200 "") = (true, "") := by
  have h := C3_default_allow stOn
  exact ⟨h.1, h.2.2.1 500 "internal error" (by decide), h.2.2.2.1 "" (by decide)⟩

/-- C6, counterexample: the code lowercases the `pass` string before
comparing, so the reply value "True" yields the verdict true although it is
not among the three strings ("true", "1", "yes") that the claim allows to map
to true — contradicting "every other string maps to false". -/
theorem C6_counterexample :
    (verdict_of_json (.obj [("pass", .str "True")])).1 = true ∧
    ("True" ∈ (["true", "1", "yes"] : List String) → False) := by
  exact ⟨rfl, by decide⟩

/-- C6 (amended): for a JSON-object reply whose `pass` field is a string, the
verdict is true exactly when the lowercased string is "true", "1" or "yes" —
the match is case-insensitive; all strings outside these equivalence classes
map to false. -/
theorem C6_string_pass (members : List (String × JVal)) (s : String)
    (h : jget members "pass" = some (.str s)) :
    ((verdict_of_json (.obj members)).1 = true ↔
      pyLower s ∈ (["true", "1", "yes"] : List String)) := by
  simp only [verdict_of_json, h]
  simp [List.mem_cons]
  tauto

/-- C6 witness: the lowercase string "yes" maps to the verdict true. -/
theorem C6_witness :
    (verdict_of_json (.obj [("pass", .str "yes")])).1 = true := by
  have h := C6_string_pass [("pass", .str "yes")] "yes" rfl
  exact h.mpr (by decide)

/-- C10: a `pass` field that is neither a boolean nor a string is coerced by
Python truthiness rather than default-allowed; in particular the values 0 and
null give a rejection verdict. -/
theorem C10_truthiness (members : List (String × JVal)) (v : JVal)
    (h : jget members "pass" = some v)
    (hb : ∀ b, v ≠ .bool b) (hs : ∀ s, v ≠ .str s) :
    (verdict_of_json (.obj members)).1 = pyBool v := by
  simp only [verdict_of_json, h]
  cases v with
  | bool b => exact absurd rfl (hb b)
  | str s => exact absurd rfl (hs s)
  | null => rfl
  | num n => rfl
  | arr a => rfl
  | obj m => rfl

/-- C10 witness: the replies with `pass` 0 and `pass` null both reject. -/
theorem C10_witness :
    (verdict_of_json (.obj [("pass", .num 0)])).1 = pyBool (.num 0) ∧
    verdict_of_json (.obj [("pass", .num 0)]) = (false, "") ∧
    verdict_of_json (.obj [("pass", .null)]) = (false, "") := by
  refine ⟨C10_truthiness [("pass", .num 0)] (.num 0) rfl
    (fun b hx => JVal.noConfusion hx) (fun s2 hx => JVal.noConfusion hx), rfl, rfl⟩

end Webh5
